import Mathlib

/-!
Verification of the collection-query recognizer (isotropy-parser-db).

The development shallowly embeds the source files of the repository:
  * `src/unnamed/part_002` (db-command builders)      → `createCollection`, `createQuery`, …
  * `src/unnamed/part_001` (read analyzer, registry)  → `nodeDefinitions`, `getSortArgs`, …
  * `src/src/schemas/sort.js` (sort normalizer)       → `getSortExpression1`, `getSortExpression2`
  * `src/src/schemas/update.js` (write recognizer)    → `updateBuild`
  * `src/unnamed/part_000` (plugin entry)             → `ensureValidConfiguration`, `runPlugin`
Modules of the repository that are not present under src/ (the analyze-chain
interpreter, the ast-asserts helpers and the chimpanzee matcher engine) are
modelled from the specification; each such definition is marked
`Modelled from the spec:` in its doc comment.
-/

/-- Expression trees consumed by the analyzers (the generic expression-tree
schema of spec section 6: identifiers, literals, member access, calls, arrow
functions, binary and unary operators, conditionals, object literals).
Member properties are identifier names, arrow parameters are identifier
names, and in `objlit` a pair whose key is `none` encodes a spread property
(`SpreadProperty` in the source schema). -/
inductive Expr where
  | ident (name : String)
  | lit (value : Int)
  | boolLit (value : Bool)
  | member (object : Expr) (property : String)
  | call (callee : Expr) (arguments : List Expr)
  | arrow (params : List String) (body : Expr)
  | binop (operator : String) (left : Expr) (right : Expr)
  | unop (operator : String) (argument : Expr)
  | cond (test : Expr) (consequent : Expr) (alternate : Expr)
  | objlit (properties : List (Option String × Expr))

/-- One `{field, ascending}` sort descriptor (spec section 3). -/
structure SortField where
  field : String
  ascending : Bool
deriving DecidableEq

/-- Values carried in the `props` part of an IR node: `filter` carries a
predicate expression, `slice` carries numeric bounds (or JS `undefined` when
the argument was not a numeric literal), `map` carries (outputName,
sourceProperty) pairs, `sort` carries sort descriptors, `update` carries the
extra object-literal properties. -/
inductive PropVal where
  | expr (e : Expr)
  | num (n : Int)
  | undefinedVal
  | mapFields (fs : List (String × String))
  | sortFields (fs : List SortField)
  | updateFields (fs : List (Option String × Expr))

/-- The `{db, collection}` argument object produced by `getRootArgs`, also
used as the recognized collection reference compared by the write recognizer. -/
structure CollRef where
  db : String
  collection : String
deriving DecidableEq

/-- Command IR node: the JS objects built in `src/unnamed/part_002`.  Each
builder there returns a plain object `{type: …, …}`; absent fields are
modelled as `none`. -/
inductive DbNode where
  | mk (typeTag : String) (method : Option String) (property : Option String)
       (db : Option String) (collection : Option String)
       (props : List (String × PropVal)) (source : Option DbNode)

/-- Field `type` of an IR node object. -/
def DbNode.typeTag : DbNode → String
  | .mk t _ _ _ _ _ _ => t

/-- Field `method` of an IR node object (`none` when the key is absent). -/
def DbNode.method : DbNode → Option String
  | .mk _ m _ _ _ _ _ => m

/-- Field `property` of an IR node object. -/
def DbNode.property : DbNode → Option String
  | .mk _ _ p _ _ _ _ => p

/-- Field `db` of an IR node object. -/
def DbNode.db : DbNode → Option String
  | .mk _ _ _ d _ _ _ => d

/-- Field `collection` of an IR node object. -/
def DbNode.collection : DbNode → Option String
  | .mk _ _ _ _ c _ _ => c

/-- The spread `...props` part of an IR node object. -/
def DbNode.props : DbNode → List (String × PropVal)
  | .mk _ _ _ _ _ ps _ => ps

/-- Field `source` of an IR node object (`none` when the key is absent). -/
def DbNode.source : DbNode → Option DbNode
  | .mk _ _ _ _ _ _ s => s

/-- `createCollection` from part_002: `{ type: "query", db, collection }` —
note: no `method` and no `source` key. -/
def createCollection (args : CollRef) : DbNode :=
  .mk "query" none none (some args.db) (some args.collection) [] none

/-- `createQuery` from part_002: `{ type: "query", method: name, ...props, source }`. -/
def createQuery (name : String) (props : List (String × PropVal)) (source : DbNode) : DbNode :=
  .mk "query" (some name) none none none props (some source)

/-- `createValue` from part_002: `{ type: "value", property: name, ...props, source }`. -/
def createValue (name : String) (props : List (String × PropVal)) (source : DbNode) : DbNode :=
  .mk "value" none (some name) none none props (some source)

/-- `createModification` from part_002:
`{ type: "modification", method: name, ...props, source }`. -/
def createModification (name : String) (props : List (String × PropVal)) (source : DbNode) : DbNode :=
  .mk "modification" (some name) none none none props (some source)

namespace DbCommand

/-- `filter` from part_002. -/
def filter (command : DbNode) (predicate : Expr) : DbNode :=
  createQuery "filter" [("predicate", .expr predicate)] command

/-- `map` from part_002. -/
def map (command : DbNode) (fields : List (String × String)) : DbNode :=
  createQuery "map" [("fields", .mapFields fields)] command

/-- Turns an optional numeric literal value into the JS value stored on the
node (`undefined` when the argument was missing or not a literal). -/
def optNum : Option Int → PropVal
  | some n => .num n
  | none => .undefinedVal

/-- `slice` from part_002. -/
def slice (command : DbNode) (args : Option Int × Option Int) : DbNode :=
  createQuery "slice" [("from", optNum args.1), ("to", optNum args.2)] command

/-- `sort` from part_002. -/
def sort (command : DbNode) (fields : List SortField) : DbNode :=
  createQuery "sort" [("fields", .sortFields fields)] command

/-- `length` from part_002. -/
def length (command : DbNode) : DbNode :=
  createValue "length" [] command

/-- `update` from part_002. -/
def update (command : DbNode) (updateProps : List (Option String × Expr)) (predicate : Expr) : DbNode :=
  createModification "update" [("update", .updateFields updateProps), ("predicate", .expr predicate)] command

/-- `remove` from part_002. -/
def remove (command : DbNode) (predicate : Expr) : DbNode :=
  createModification "remove" [("predicate", .expr predicate)] command

end DbCommand

/-- Operation ids of the chain state machine (spec section 4.3). -/
inductive OpId where
  | root | filter | map | slice | sort | length
deriving DecidableEq

/-- Analyzer context: `identifiers` is `config.identifiers` (the explicitly
configured root identifier names, absent when the configuration relies on
scope resolution); `rootBindings` models the identifiers that
`state.rootDeclarations` scope resolution recognizes (the root-resolution
collaborator of spec section 6). -/
structure AnalyzerConfig where
  identifiers : Option (List String)
  rootBindings : List String

/-- `isRoot` from part_001: a member expression whose object is an identifier
that either appears in `config.identifiers` or resolves to a recorded root
declaration. -/
def isRoot (cfg : AnalyzerConfig) : Expr → Bool
  | .member (.ident n) _ =>
      match cfg.identifiers with
      | some ids => ids.contains n
      | none => cfg.rootBindings.contains n
  | _ => false

/-- `getRootArgs` from part_001: both branches return
`{ db: object.name, collection: property.name }`. -/
def getRootArgs : Expr → Option CollRef
  | .member (.ident n) p => some ⟨n, p⟩
  | _ => none

/-- One entry of the operation-definition registry: id, method name, node
kind and allowed predecessors.  The `builder`/`args` fields of the source
records are dispatched on `id` by `buildOp` below. -/
structure NodeDefinition where
  id : OpId
  name : Option String
  nodeType : String
  follows : List OpId

/-- `nodeDefinitions` from part_001, in source order: the transition table of
the chain state machine. -/
def nodeDefinitions : List NodeDefinition :=
  [ ⟨.root, none, "predicate", []⟩,
    ⟨.filter, some "filter", "CallExpression", [.root, .sort]⟩,
    ⟨.map, some "map", "CallExpression", [.root, .filter, .sort, .slice]⟩,
    ⟨.slice, some "slice", "CallExpression", [.root, .filter, .sort, .map]⟩,
    ⟨.sort, some "sort", "CallExpression", [.root, .filter]⟩,
    ⟨.length, some "length", "MemberExpression", [.root, .filter]⟩ ]

/-- All operation ids, used as the whitelist when resolving a predecessor. -/
def allOps : List OpId := [.root, .filter, .map, .slice, .sort, .length]

/-- Modelled from the spec: step (1) of the chain analyzer (the analyze-chain
module is not under src/) — whether a registry entry matches a candidate
node's shape and name; `predicate` entries are tested with their predicate
(`isRoot`), call entries match a call whose callee property equals the
entry's name, member entries match a member access on the entry's name. -/
def defMatches (cfg : AnalyzerConfig) (d : NodeDefinition) (e : Expr) : Bool :=
  if d.nodeType = "predicate" then isRoot cfg e
  else if d.nodeType = "CallExpression" then
    match e with
    | .call (.member _ m) _ => d.name == some m
    | _ => false
  else if d.nodeType = "MemberExpression" then
    match e with
    | .member _ m => d.name == some m
    | _ => false
  else false

/-- Modelled from the spec: the registry lookup of the chain analyzer,
restricted to the operation-id whitelist supplied by the calling recognizer. -/
def findDef (cfg : AnalyzerConfig) (whitelist : List OpId) (e : Expr) : Option NodeDefinition :=
  (nodeDefinitions.filter (fun d => whitelist.contains d.id)).find? (fun d => defMatches cfg d e)

/-- The argument list of a call node (empty for other nodes). -/
def callArgsOf : Expr → List Expr
  | .call _ args => args
  | _ => []

/-- Modelled from the spec: `assertUnaryArrowFunction` of the ast-asserts
module (not under src/) — fatal unless the node is a one-parameter arrow
function. -/
def assertUnaryArrow : Option Expr → Except String (String × Expr)
  | some (.arrow [p] body) => .ok (p, body)
  | _ => .error "Expected a unary arrow function."

/-- `getFilterArgs` from part_001: the body of a one-parameter arrow
function, passed through opaque. -/
def getFilterArgs (args : List Expr) : Except String Expr := do
  let (_, body) ← assertUnaryArrow args.head?
  return body

/-- `getMapArgs` from part_001: a one-parameter arrow returning an object
literal each of whose values is a property access on the parameter; yields
the (outputName, sourceProperty) pairs.  A value of any other shape is fatal
(`assertMemberExpressionUsesParameter`, modelled from the spec since the
ast-asserts module is not under src/). -/
def getMapArgs (args : List Expr) : Except String (List (String × String)) := do
  let (p, body) ← assertUnaryArrow args.head?
  match body with
  | .objlit props =>
      props.mapM (fun pr =>
        match pr with
        | (some k, .member (.ident o) f) =>
            if o = p then .ok (k, f)
            else .error "The member expression must use the arrow function parameter."
        | _ => .error "The member expression must use the arrow function parameter.")
  | _ => .error "The map expression should return an object."

/-- `getSliceArgs` from part_001: reads `path[0].node.value` and
`path[1].node.value` without validation, so a missing or non-literal
argument yields JS `undefined` (`none`). -/
def getSliceArgs (args : List Expr) : Option Int × Option Int :=
  (match args.head? with | some (.lit n) => some n | _ => none,
   match args.get? 1 with | some (.lit n) => some n | _ => none)

/-- The relational operators accepted by `getSortArgs`. -/
def relationalOps : List String := [">", ">=", "<", "<="]

/-- `getSortArgs` from part_001 (`assertBinaryArrowFunction` and
`assertMemberExpressionUsesParameter` are modelled from the spec, the
ast-asserts module not being under src/).  The operator is checked first;
then the left operand must be a member access on one of the two parameters;
then both sides must access the same field; then both parameters must be
referenced.  Reading `right.property` of a non-member right operand crashes
in the source (`TypeError`), modelled as a fatal error. -/
def getSortArgs (args : List Expr) : Except String (List SortField) :=
  match args.head? with
  | some (.arrow [p1, p2] body) =>
      match body with
      | .binop op l r =>
          if relationalOps.contains op then
            match l with
            | .member (.ident lo) lf =>
                if lo = p1 ∨ lo = p2 then
                  match r with
                  | .member (.ident ro) rf =>
                      if lf ≠ rf then
                        .error "The sort expression should use the same field."
                      else if (lo = p1 ∨ ro = p1) ∧ (lo = p2 ∨ ro = p2) then
                        .ok [⟨lf, (op = ">" ∧ p1 = lo) ∨ (op = "<" ∧ p1 = ro)⟩]
                      else
                        .error "The sort expression should reference both parameters in the arrow function."
                  | _ => .error "TypeError: cannot read the property of an undefined node."
                else .error "The member expression must use the arrow function parameter."
            | _ => .error "The member expression must use the arrow function parameter."
          else .error "The sort function should use the greater than or less than operator."
      | _ => .error "The sort function should use the greater than or less than operator."
  | _ => .error "Expected a binary arrow function."

/-- Modelled from the spec: step (4)–(5) of the chain analyzer — dispatch on
the matched definition's id to run its argument extractor on the candidate
node and hand the result to its builder together with the predecessor's IR
node. -/
def buildOp (id : OpId) (e : Expr) (pir : DbNode) : Except String (Option (OpId × DbNode)) :=
  match id with
  | .filter => (getFilterArgs (callArgsOf e)).map (fun p => some (.filter, DbCommand.filter pir p))
  | .map => (getMapArgs (callArgsOf e)).map (fun fs => some (.map, DbCommand.map pir fs))
  | .slice => .ok (some (.slice, DbCommand.slice pir (getSliceArgs (callArgsOf e))))
  | .sort => (getSortArgs (callArgsOf e)).map (fun fs => some (.sort, DbCommand.sort pir fs))
  | .length => .ok (some (.length, DbCommand.length pir))
  | .root => .ok none

/-- Modelled from the spec: the chain analyzer produced by `makeAnalyzer`
(the analyze-chain module is not under src/), following section 4.3: find
the registry entry matching the node within the caller's whitelist, resolve
the predecessor by recursively analyzing the inner object (over the full
registry), verify the predecessor's id is in the entry's `follows` set (an
invalid chain produces no IR node), then run the entry's argument extractor
and builder (extractor violations are fatal). -/
def analyzeChain (cfg : AnalyzerConfig) (whitelist : List OpId) : Expr → Except String (Option (OpId × DbNode))
  | .call (.member o m) args =>
      match findDef cfg whitelist (.call (.member o m) args) with
      | none => .ok none
      | some d =>
          match analyzeChain cfg allOps o with
          | .error msg => .error msg
          | .ok none => .ok none
          | .ok (some (pid, pir)) =>
              if pid ∈ d.follows then buildOp d.id (.call (.member o m) args) pir
              else .ok none
  | .member o p =>
      match findDef cfg whitelist (.member o p) with
      | none => .ok none
      | some d =>
          if d.id = OpId.root then
            match getRootArgs (.member o p) with
            | some a => .ok (some (.root, createCollection a))
            | none => .ok none
          else
            match analyzeChain cfg allOps o with
            | .error msg => .error msg
            | .ok none => .ok none
            | .ok (some (pid, pir)) =>
                if pid ∈ d.follows then buildOp d.id (.member o p) pir
                else .ok none
  | _ => .ok none

/-- `analyzeCallExpression` from part_001: entry whitelist filter, map,
slice, sort. -/
def analyzeCallExpression (cfg : AnalyzerConfig) (e : Expr) : Except String (Option (OpId × DbNode)) :=
  analyzeChain cfg [.filter, .map, .slice, .sort] e

/-- `analyzeMemberExpression` from part_001: entry whitelist root, length. -/
def analyzeMemberExpression (cfg : AnalyzerConfig) (e : Expr) : Except String (Option (OpId × DbNode)) :=
  analyzeChain cfg [.root, .length] e

/-- Outcome of a sort-comparator normalization in `src/src/schemas/sort.js`:
either a `{field, ascending}` descriptor or a soft `Skip` with its reason. -/
inductive SortOutcome where
  | descriptor (field : String) (ascending : Bool)
  | skip (reason : String)
deriving DecidableEq

/-- The fifteen captures consumed by `getSortExpression1` in sort.js: the two
formal parameters, and for each of the two comparisons the member-expression
objects and properties, the operator, and the branch literal, plus the
trailing literal `val3`.  The literals captured by the `integer` schema are
numbers, modelled as `Int`. -/
structure Sort1Args where
  param1 : String
  param2 : String
  lhs1 : String
  lhsProp1 : String
  rhs1 : String
  rhsProp1 : String
  operator1 : String
  val1 : Int
  lhs2 : String
  lhsProp2 : String
  rhs2 : String
  rhsProp2 : String
  operator2 : String
  val2 : Int
  val3 : Int

/-- A sign computed by one of the helpers inside `getSortExpression1`, or the
`Skip` those helpers return on unusable input. -/
inductive SignOrSkip where
  | sign (n : Int)
  | skipped (reason : String)
deriving DecidableEq

/-- `paramOrder` from sort.js: +1 when the pair appears in declared order,
-1 when swapped, `Skip` otherwise. -/
def paramOrder (param1 param2 p1 p2 : String) : SignOrSkip :=
  if param1 = p1 ∧ param2 = p2 then .sign 1
  else if param1 = p2 ∧ param2 = p1 then .sign (-1)
  else .skipped "The sort expression must reference the declared parameters."

/-- `operatorVal` from sort.js: relational operators decode to a sign,
anything else is a `Skip`. -/
def operatorVal (o : String) : SignOrSkip :=
  if o = ">" ∨ o = ">=" then .sign 1
  else if o = "<" ∨ o = "<=" then .sign (-1)
  else if o = "==" ∨ o = "===" then .sign 0
  else .skipped "Unknown operator was found in the sort expression."

/-- `stdVal` from sort.js: the clamped sign of a branch literal (captured
literals are always numbers in this model, so the `typeof` guard of the
source never fires). -/
def stdVal (v : Int) : SignOrSkip :=
  .sign (if 1 < v then 1 else if v < 0 then -1 else 0)

/-- `getSortExpression1` from sort.js, lines 36–106.  When the four captured
property names are not all equal it returns the soft Skip of line 105.  When
they are all equal the code builds `normalized` by mapping the callback
`([[lhs, rhs], operator]) => [paramOrder(lhs, rhs), operatorVal(operator), val]`
over the two comparison rows (line 89).  The identifier `val` in that
callback is bound nowhere in the module — `stdVal` (line 79) is defined but
never applied — so under ES-module (strict mode) semantics the first
callback invocation raises `ReferenceError`, before any product or sum is
computed.  The raised error is modelled as `Except.error`. -/
def getSortExpression1 (a : Sort1Args) : Except String SortOutcome :=
  if a.lhsProp1 = a.rhsProp1 ∧ a.lhsProp1 = a.lhsProp2 ∧ a.lhsProp1 = a.rhsProp2 then
    .error "ReferenceError: val is not defined"
  else
    .ok (.skip "All fields in the sort expression must be the same.")

/-- The sign carried by a `SignOrSkip`, when it is one. -/
def SignOrSkip.signVal : SignOrSkip → Option Int
  | .sign n => some n
  | .skipped _ => none

/-- The first `Skip` reason in a flattened row list, mirroring
`R.flatten(normalized).find(v => v instanceof Skip)`. -/
def firstSkip : List SignOrSkip → Option String
  | [] => none
  | .sign _ :: rest => firstSkip rest
  | .skipped msg :: _ => some msg

/-- Modelled from the spec: the computation `getSortExpression1` describes in
spec section 4.2 and in the source's own comments — identical to
`getSortExpression1` except that the unbound `val` of line 89 is replaced by
`stdVal` applied to the row's branch literal, so each row becomes the product
of the parameter-order sign, the operator sign and the clamped literal sign;
the two rows are summed with the trailing literal and +2 yields ascending,
-2 descending, anything else an invalid-sort Skip. -/
def getSortExpression1Spec (a : Sort1Args) : SortOutcome :=
  if a.lhsProp1 = a.rhsProp1 ∧ a.lhsProp1 = a.lhsProp2 ∧ a.lhsProp1 = a.rhsProp2 then
    let row1 := [paramOrder a.param1 a.param2 a.lhs1 a.rhs1, operatorVal a.operator1, stdVal a.val1]
    let row2 := [paramOrder a.param1 a.param2 a.lhs2 a.rhs2, operatorVal a.operator2, stdVal a.val2]
    match firstSkip (row1 ++ row2) with
    | some msg => .skip msg
    | none =>
        let prod := fun (row : List SignOrSkip) =>
          row.foldl (fun acc s => acc * (s.signVal.getD 0)) 1
        let total := prod row1 + prod row2 + a.val3
        if total = 2 then .descriptor a.lhsProp1 true
        else if total = -2 then .descriptor a.lhsProp1 false
        else .skip "Invalid sort expression."
  else .skip "All fields in the sort expression must be the same."

/-- The captures consumed by `getSortExpression2` in sort.js: the two formal
parameters, the member-expression objects and properties of the subtraction,
and the unary operator of the negated variant (`none` when the un-negated
pattern matched, mirroring the JS `undefined`). -/
structure Sort2Args where
  param1 : String
  param2 : String
  lhsObject : String
  lhsProp : String
  rhsObject : String
  rhsProp : String
  operator : Option String

/-- `getSortExpression2` from sort.js, lines 252–268: both parameters must
appear among the two member-expression objects and both sides must access
the same property; `ascending` is `getSortOrder(operator === "-")` where
`getSortOrder(negated)` is `(!negated && param1 === lhsObject) ||
(negated && param1 === rhsObject)`. -/
def getSortExpression2 (a : Sort2Args) : SortOutcome :=
  let negated : Bool := a.operator = some "-"
  let sortOrder : Bool :=
    (!negated && (a.param1 = a.lhsObject : Bool)) || (negated && (a.param1 = a.rhsObject : Bool))
  if (a.param1 = a.lhsObject ∨ a.param1 = a.rhsObject) ∧
     (a.param2 = a.lhsObject ∨ a.param2 = a.rhsObject) then
    if a.lhsProp = a.rhsProp then .descriptor a.lhsProp sortOrder
    else .skip "The sort expression must reference the same property on compared objects."
  else .skip "The sort expression must reference the declared parameters."

/-- Whether a node satisfies the `exists` predicate of update.js lines 41/46:
`R.equals(identifierPropsOf(x), identifier)` restricts `x` to the keys of
`{type: "Identifier", name: param}`, so it holds exactly when the node is an
identifier named like the arrow parameter. -/
def identEquals (p : String) : Expr → Bool
  | .ident q => q = p
  | _ => false

/-- `getArrowFunctionBody` from update.js lines 9–51, interpreted by the
matcher: the body must be a conditional whose consequent is an object
spreading the parameter followed by any further properties and whose
alternate is the bare parameter (standard form), or the same with the two
branches swapped (inverse form; alternation tries standard first).  On a
match it yields the captured test and the repeating-item captures (the extra
properties). -/
def matchUpdateConditional (p : String) (body : Expr) : Option (Expr × List (Option String × Expr)) :=
  match body with
  | .cond test consequent alternate =>
      match consequent, alternate with
      | .objlit ((none, .ident q) :: rest), _ =>
          if q = p ∧ identEquals p alternate then some (test, rest)
          else
            match consequent, alternate with
            | _, .objlit ((none, .ident q') :: rest') =>
                if identEquals p consequent ∧ q' = p then some (test, rest') else none
            | _, _ => none
      | _, .objlit ((none, .ident q') :: rest') =>
          if identEquals p consequent ∧ q' = p then some (test, rest') else none
      | _, _ => none
  | _ => none

/-- The value returned by the `build` stage of the write recognizer in
update.js: a `modification` IR object, a plain JS function value, a
chimpanzee `Skip`, or a raised `ReferenceError`. -/
inductive UpdateBuildResult where
  | modification (method : String) (updateProps : List (Option String × Expr)) (predicate : Expr)
  | functionValue
  | skip (reason : String)
  | refError (msg : String)

/-- The `build` stage of update.js lines 78–93 for an already-matched
assignment `left = object.map(param => body)`: when the two collection
references are equal it parses the conditional; a successful parse makes the
build return the closure `() => { console.log(update); return new Skip("yoyo!"); }`
itself (a JS function value — the imported `update` builder is never
called), and a failed parse returns that parse's Skip.  When the references
differ the code evaluates `new Skip(...)`, but `Skip` is not among
update.js's imports, so the evaluation raises `ReferenceError`. -/
def updateBuild (left object : CollRef) (param : String) (body : Expr) : UpdateBuildResult :=
  if left = object then
    match matchUpdateConditional param body with
    | some _ => .functionValue
    | none => .skip "No matching alternative for the update conditional."
  else .refError "ReferenceError: Skip is not defined"

/-- The plugin configuration validated in part_000: explicit root identifier
names and the client/server package names.  Absent JS fields are `none`. -/
structure PluginConfig where
  identifiers : Option (List String)
  clientPackageName : Option String
  serverPackageName : Option String

/-- The message thrown by `ensureValidConfiguration`. -/
def configErrorMsg : String :=
  "Either a db identifier, or both clientPackageName and serverPackageName has to be set in configuration."

/-- `ensureValidConfiguration` from part_000 lines 7–11: throws unless the
configuration has explicit identifiers or a client or server package name. -/
def ensureValidConfiguration (c : PluginConfig) : Except String Unit :=
  if c.identifiers.isNone ∧ (c.clientPackageName.isNone ∧ c.serverPackageName.isNone) then
    .error configErrorMsg
  else .ok ()

/-- The analyzer context derived from a validated plugin configuration (the
per-file root-declaration accumulator starts empty). -/
def configOf (c : PluginConfig) : AnalyzerConfig :=
  ⟨c.identifiers, []⟩

/-- Per-node dispatch of the visitor in part_000: call expressions go to the
read call analyzer, member expressions to the read member analyzer; other
node kinds produce nothing here. -/
def visitNode (cfg : AnalyzerConfig) (e : Expr) : Except String (Option (OpId × DbNode)) :=
  match e with
  | .call _ _ => analyzeCallExpression cfg e
  | .member _ _ => analyzeMemberExpression cfg e
  | _ => .ok none

/-- The plugin lifecycle of part_000: `pre` validates the configuration
(once, eagerly), and only then does the traversal visit any node. -/
def runPlugin (c : PluginConfig) (nodes : List Expr) :
    Except String (List (Except String (Option (OpId × DbNode)))) :=
  match ensureValidConfiguration c with
  | .error msg => .error msg
  | .ok _ => .ok (nodes.map (visitNode (configOf c)))

/-- Modelled from the spec: tree-shaped input values of the matcher engine
(the chimpanzee library backing sort.js and update.js is not under src/).
Arrays and objects are spine-encoded: `vcons`/`vnil` build arrays,
`ocons`/`onil` build objects as key–value sequences. -/
inductive JsVal where
  | str (s : String)
  | num (n : Int)
  | vnil
  | vcons (head : JsVal) (tail : JsVal)
  | onil
  | ocons (key : String) (value : JsVal) (rest : JsVal)
deriving DecidableEq

/-- The value of a field of a spine-encoded object, when present. -/
def getField (k : String) : JsVal → Option JsVal
  | .ocons k' v rest => if k' = k then some v else getField k rest
  | _ => none

/-- Modelled from the spec: matcher patterns (section 3) — literals, object
shapes (spine-encoded, partial: unspecified fields are ignored), exact
sequences (spine-encoded), ordered alternation, and captures.  A bare
`capture` binds the raw candidate value. -/
inductive Pattern where
  | lit (v : JsVal)
  | capture (name : String)
  | shapeNil
  | shapeCons (key : String) (p : Pattern) (rest : Pattern)
  | seqNil
  | seqCons (p : Pattern) (rest : Pattern)
  | anyNil
  | anyCons (p : Pattern) (rest : Pattern)

/-- Modelled from the spec: the outcome of one matching operation — a
`Match` with its accumulated name bindings, or a soft `Skip`. -/
inductive MatchOutcome where
  | success (bindings : List (String × JsVal))
  | skip (reason : String)
deriving DecidableEq

/-- The Skip reason when one capture name is bound to two different values. -/
def captureConflictMsg : String :=
  "A capture name was bound to two different values."

/-- Adds one binding, enforcing that a name captured twice binds the same
value both times (spec section 4.1); a conflict yields `none`. -/
def addBinding (bs : List (String × JsVal)) (n : String) (v : JsVal) :
    Option (List (String × JsVal)) :=
  match bs.find? (fun b => b.1 = n) with
  | some (_, w) => if w = v then some bs else none
  | none => some (bs ++ [(n, v)])

/-- Merges the bindings of two partial matches; `none` on a capture conflict. -/
def mergeBindings (bs : List (String × JsVal)) : List (String × JsVal) → Option (List (String × JsVal))
  | [] => some bs
  | (n, v) :: rest =>
      match addBinding bs n v with
      | some bs' => mergeBindings bs' rest
      | none => none

/-- Combines two sub-outcomes: either Skip propagates, and two Matches merge
their bindings, Skipping on a repeated-capture conflict. -/
def combine : MatchOutcome → MatchOutcome → MatchOutcome
  | .skip s, _ => .skip s
  | .success _, .skip s => .skip s
  | .success b1, .success b2 =>
      match mergeBindings b1 b2 with
      | some b => .success b
      | none => .skip captureConflictMsg

/-- Modelled from the spec: the matcher engine `match(pattern, value)` of
section 4.1 — literal patterns compare structurally; shape patterns match
each declared field (a missing field Skips, extra fields are ignored);
sequence patterns match positionally with arity checked; alternation returns
the first Match; captures record `name → value` and a repeated capture name
must bind the same value both times. -/
def matchPat : Pattern → JsVal → MatchOutcome
  | .lit w, v => if v = w then .success [] else .skip "Literal pattern did not match."
  | .capture n, v => .success [(n, v)]
  | .shapeNil, _ => .success []
  | .shapeCons k p rest, v =>
      match getField k v with
      | some fv => combine (matchPat p fv) (matchPat rest v)
      | none => .skip "A declared field is missing from the value."
  | .seqNil, v => if v = .vnil then .success [] else .skip "Sequence arity mismatch."
  | .seqCons p rest, .vcons h t => combine (matchPat p h) (matchPat rest t)
  | .seqCons _ _, _ => .skip "Sequence arity mismatch."
  | .anyNil, _ => .skip "No alternative matched."
  | .anyCons p rest, v =>
      match matchPat p v with
      | .success b => .success b
      | .skip _ => matchPat rest v

/-- A sequence pattern of exactly two captures of the same name, the shape
the comparator patterns of sort.js use for their two formal parameters. -/
def pairCapturePat (n : String) : Pattern :=
  .seqCons (.capture n) (.seqCons (.capture n) .seqNil)

/-- The `params` pattern shared by `compareFn1` and `compareFn2` in sort.js:
two identifier nodes whose `name` fields are both captured under the single
capture name "name". -/
def comparatorParamsPat : Pattern :=
  .seqCons (.shapeCons "type" (.lit (.str "Identifier"))
             (.shapeCons "name" (.capture "name") .shapeNil))
    (.seqCons (.shapeCons "type" (.lit (.str "Identifier"))
                (.shapeCons "name" (.capture "name") .shapeNil))
      .seqNil)

/-- The outer shape of the comparator patterns of sort.js: an arrow function
whose `params` match `comparatorParamsPat`; the body sub-pattern is taken as
an opaque capture here since the conflict at the params already decides the
outcome. -/
def comparatorHeadPat : Pattern :=
  .shapeCons "type" (.lit (.str "ArrowFunctionExpression"))
    (.shapeCons "params" comparatorParamsPat
      (.shapeCons "body" (.capture "body") .shapeNil))

/-- The tree value of an identifier AST node. -/
def identVal (n : String) : JsVal :=
  .ocons "type" (.str "Identifier") (.ocons "name" (.str n) .onil)

/-- The tree value of a two-parameter arrow-function AST node with an
arbitrary body value. -/
def arrowVal (a b : String) (bodyV : JsVal) : JsVal :=
  .ocons "type" (.str "ArrowFunctionExpression")
    (.ocons "params" (.vcons (identVal a) (.vcons (identVal b) .vnil))
      (.ocons "body" bodyV .onil))

/-- The captures produced by the ternary comparator
`(a, b) => a.total > b.total ? 2 : a.total < b.total ? -1 : 0`. -/
def c1Args : Sort1Args :=
  ⟨"a", "b", "a", "total", "b", "total", ">", 2, "a", "total", "b", "total", "<", -1, 0⟩

/-- The test of the update conditional `t.id === 10 ? {...t, active: true} : t`. -/
def c2Test : Expr := .binop "===" (.member (.ident "t") "id") (.lit 10)

/-- The body of the update arrow `t => t.id === 10 ? {...t, active: true} : t`. -/
def c2Body : Expr :=
  .cond c2Test (.objlit [(none, .ident "t"), (some "active", .boolLit true)]) (.ident "t")

/-- An analyzer context whose configuration names `root` as the only
explicit root identifier. -/
def rootConfig : AnalyzerConfig := ⟨some ["root"], []⟩

/-- The chain `root.todos.filter(t => t.done).map(t => ({title: t.title})).slice(0, 5)`. -/
def c4Chain : Expr :=
  .call (.member (.call (.member (.call (.member (.member (.ident "root") "todos") "filter")
    [.arrow ["t"] (.member (.ident "t") "done")]) "map")
    [.arrow ["t"] (.objlit [(some "title", .member (.ident "t") "title")])]) "slice")
    [.lit 0, .lit 5]

/-- The IR pipeline expected for `c4Chain`: one node per operation, each
linked to its predecessor through `source`, rooted in the collection
reference. -/
def c4ExpectedIR : DbNode :=
  DbNode.mk "query" (some "slice") none none none
    [("from", .num 0), ("to", .num 5)]
    (some (DbNode.mk "query" (some "map") none none none
      [("fields", .mapFields [("title", "title")])]
      (some (DbNode.mk "query" (some "filter") none none none
        [("predicate", .expr (.member (.ident "t") "done"))]
        (some (DbNode.mk "query" none none (some "root") (some "todos") [] none))))))

/-- The chain `root.todos.map(t => ({title: t.title})).filter(t => t.done)`,
whose resolved predecessor (`map`) is not in `filter.follows`. -/
def c4BadChain : Expr :=
  .call (.member (.call (.member (.member (.ident "root") "todos") "map")
    [.arrow ["t"] (.objlit [(some "title", .member (.ident "t") "title")])]) "filter")
    [.arrow ["t"] (.member (.ident "t") "done")]

/-- C10: every IR node built by `createCollection` carries the type tag
"query" — the same tag as the Query continuation nodes built by
`createQuery` — together with `db` and `collection` fields and no `source`
field, so a root node is distinguishable from Query nodes only by the
absence of the `source` (and `method`) field, not by its type tag. -/
theorem C10_collection_ref_type_tag :
    (∀ a : CollRef,
      (createCollection a).typeTag = "query" ∧
      (createCollection a).db = some a.db ∧
      (createCollection a).collection = some a.collection ∧
      (createCollection a).source = none ∧
      (createCollection a).method = none) ∧
    (∀ (n : String) (ps : List (String × PropVal)) (s : DbNode),
      (createQuery n ps s).typeTag = "query" ∧
      (createQuery n ps s).method = some n ∧
      (createQuery n ps s).source = some s) ∧
    (∀ (a : CollRef) (n : String) (ps : List (String × PropVal)) (s : DbNode),
      (createCollection a).typeTag = (createQuery n ps s).typeTag) :=
  ⟨fun _ => ⟨rfl, rfl, rfl, rfl, rfl⟩,
   fun _ _ _ => ⟨rfl, rfl, rfl⟩,
   fun _ _ _ _ => rfl⟩

/-- C1: on every comparator of the ternary idiom whose four compared
property names are equal, `getSortExpression1` raises a `ReferenceError`
(the callback of line 89 reads the unbound identifier `val`; `stdVal` is
never applied), instead of computing the sign products the specification
describes; on the comparator
`(a, b) => a.total > b.total ? 2 : a.total < b.total ? -1 : 0` the
spec-described computation yields `{field: "total", ascending: true}` while
the code errors. -/
theorem C1_ternary_normalizer_raises_reference_error :
    (∀ a : Sort1Args,
      a.lhsProp1 = a.rhsProp1 → a.lhsProp1 = a.lhsProp2 → a.lhsProp1 = a.rhsProp2 →
      getSortExpression1 a = .error "ReferenceError: val is not defined") ∧
    getSortExpression1 c1Args = .error "ReferenceError: val is not defined" ∧
    getSortExpression1Spec c1Args = .descriptor "total" true := by
  refine ⟨fun a h1 h2 h3 => ?_, rfl, rfl⟩
  unfold getSortExpression1
  rw [if_pos ⟨h1, h2, h3⟩]

/-- Witness for C1 at the concrete comparator captures `c1Args`. -/
theorem C1_ternary_normalizer_raises_reference_error_witness :
    getSortExpression1 c1Args = .error "ReferenceError: val is not defined" :=
  C1_ternary_normalizer_raises_reference_error.1 c1Args rfl rfl rfl

/-- C2: on the assignment
`root.todos = root.todos.map(t => t.id === 10 ? {...t, active: true} : t)`
the write recognizer's conditional parse succeeds, yet the build stage
returns the leftover debugging closure (a JS function value) — it never
calls the imported `update` builder, so no
`Modification{method: "update", …}` IR node is produced. -/
theorem C2_write_recognizer_returns_closure_not_modification :
    matchUpdateConditional "t" c2Body = some (c2Test, [(some "active", .boolLit true)]) ∧
    updateBuild ⟨"root", "todos"⟩ ⟨"root", "todos"⟩ "t" c2Body = .functionValue ∧
    (∀ (m : String) (u : List (Option String × Expr)) (pr : Expr),
      updateBuild ⟨"root", "todos"⟩ ⟨"root", "todos"⟩ "t" c2Body ≠ .modification m u pr) := by
  refine ⟨rfl, rfl, fun m u pr h => ?_⟩
  rw [show updateBuild ⟨"root", "todos"⟩ ⟨"root", "todos"⟩ "t" c2Body = .functionValue from rfl] at h
  exact UpdateBuildResult.noConfusion h

/-- C6: whenever the matched assignment's left-hand collection reference
differs from the map call's source collection reference, the build stage of
update.js evaluates `new Skip(...)` with `Skip` not among the module's
imports, so it raises a `ReferenceError` instead of returning a soft Skip;
shown in general and at the assignment
`root.users = root.todos.map(t => t.id === 10 ? {...t, active: true} : t)`. -/
theorem C6_mismatched_collection_raises_reference_error :
    (∀ (left object : CollRef) (p : String) (body : Expr), left ≠ object →
      updateBuild left object p body = .refError "ReferenceError: Skip is not defined") ∧
    updateBuild ⟨"root", "users"⟩ ⟨"root", "todos"⟩ "t" c2Body =
      .refError "ReferenceError: Skip is not defined" ∧
    (∀ msg, updateBuild ⟨"root", "users"⟩ ⟨"root", "todos"⟩ "t" c2Body ≠ .skip msg) := by
  refine ⟨fun l o p body h => by simp [updateBuild, h], rfl, fun msg h => ?_⟩
  rw [show updateBuild ⟨"root", "users"⟩ ⟨"root", "todos"⟩ "t" c2Body =
    .refError "ReferenceError: Skip is not defined" from rfl] at h
  exact UpdateBuildResult.noConfusion h

/-- Witness for C6 at two concrete, distinct collection references. -/
theorem C6_mismatched_collection_raises_reference_error_witness :
    updateBuild ⟨"root", "users"⟩ ⟨"root", "todos"⟩ "t" (.ident "t") =
      .refError "ReferenceError: Skip is not defined" :=
  C6_mismatched_collection_raises_reference_error.1 ⟨"root", "users"⟩ ⟨"root", "todos"⟩ "t"
    (.ident "t") (by decide)

/-- C9: the configuration check of part_000 is fatal exactly when the
configuration has neither explicit root identifiers nor a client or server
package name; when it fails, the plugin run errors before analyzing any
node, and when it passes, analysis proceeds over all visited nodes. -/
theorem C9_configuration_validated_eagerly :
    (∀ c : PluginConfig,
      (∃ m, ensureValidConfiguration c = .error m) ↔
        (c.identifiers = none ∧ c.clientPackageName = none ∧ c.serverPackageName = none)) ∧
    (∀ (c : PluginConfig) (nodes : List Expr) (m : String),
      ensureValidConfiguration c = .error m → runPlugin c nodes = .error m) ∧
    (∀ (c : PluginConfig) (nodes : List Expr),
      ensureValidConfiguration c = .ok () →
      runPlugin c nodes = .ok (nodes.map (visitNode (configOf c)))) := by
  refine ⟨fun c => ?_, fun c nodes m h => ?_, fun c nodes h => ?_⟩
  · constructor
    · rintro ⟨m, hm⟩
      unfold ensureValidConfiguration at hm
      split at hm
      · next hcond =>
          exact ⟨Option.isNone_iff_eq_none.mp hcond.1,
                 Option.isNone_iff_eq_none.mp hcond.2.1,
                 Option.isNone_iff_eq_none.mp hcond.2.2⟩
      · exact absurd hm (by simp)
    · rintro ⟨h1, h2, h3⟩
      exact ⟨configErrorMsg, by simp [ensureValidConfiguration, h1, h2, h3]⟩
  · simp [runPlugin, h]
  · simp [runPlugin, h]

/-- Witness for C9: the empty configuration fails before any analysis; a
configuration with an explicit identifier passes and analysis proceeds. -/
theorem C9_configuration_validated_eagerly_witness :
    runPlugin ⟨none, none, none⟩ [.member (.member (.ident "root") "todos") "length"] =
      .error configErrorMsg ∧
    runPlugin ⟨some ["root"], none, none⟩ [] = .ok [] :=
  ⟨C9_configuration_validated_eagerly.2.1 ⟨none, none, none⟩ _ configErrorMsg rfl,
   C9_configuration_validated_eagerly.2.2 ⟨some ["root"], none, none⟩ [] rfl⟩

/-- The claim's side condition for the subtraction idiom: the two
member-expression objects are exactly the two formal parameters, in either
order. -/
def sort2ObjectsAreFormals (a : Sort2Args) : Prop :=
  (a.lhsObject = a.param1 ∧ a.rhsObject = a.param2) ∨
  (a.lhsObject = a.param2 ∧ a.rhsObject = a.param1)

/-- The claim's ascending formula for the subtraction idiom: true iff the
first formal is the left operand's object in the un-negated form, or the
right operand's object in the negated form. -/
def sort2ClaimAscending (a : Sort2Args) : Bool :=
  if a.operator = some "-" then a.param1 = a.rhsObject else a.param1 = a.lhsObject

/-- C3: for a two-parameter comparator of the subtraction idiom with
distinct formals, `getSortExpression2` yields a descriptor exactly when both
formals appear as the two member-expression objects and both sides access
the same property, and that descriptor is `{field: lhsProp, ascending}`
with ascending true iff the first formal is the left operand's object
(un-negated form) or the right operand's object (negated form). -/
theorem C3_subtraction_normalizer_descriptor (a : Sort2Args) (hd : a.param1 ≠ a.param2) :
    ((∃ f asc, getSortExpression2 a = .descriptor f asc) ↔
      (sort2ObjectsAreFormals a ∧ a.lhsProp = a.rhsProp)) ∧
    (sort2ObjectsAreFormals a → a.lhsProp = a.rhsProp →
      getSortExpression2 a = .descriptor a.lhsProp (sort2ClaimAscending a)) := by
  have hcond : ((a.param1 = a.lhsObject ∨ a.param1 = a.rhsObject) ∧
      (a.param2 = a.lhsObject ∨ a.param2 = a.rhsObject)) ↔ sort2ObjectsAreFormals a := by
    constructor
    · rintro ⟨h1 | h1, h2 | h2⟩
      · exact absurd (h1.trans h2.symm) hd
      · exact Or.inl ⟨h1.symm, h2.symm⟩
      · exact Or.inr ⟨h2.symm, h1.symm⟩
      · exact absurd (h1.trans h2.symm) hd
    · rintro (⟨h1, h2⟩ | ⟨h1, h2⟩)
      · exact ⟨Or.inl h1.symm, Or.inr h2.symm⟩
      · exact ⟨Or.inr h2.symm, Or.inl h1.symm⟩
  have hpart2 : sort2ObjectsAreFormals a → a.lhsProp = a.rhsProp →
      getSortExpression2 a = .descriptor a.lhsProp (sort2ClaimAscending a) := by
    intro hf hp
    have hc := hcond.mpr hf
    unfold getSortExpression2
    simp only []
    rw [if_pos hc, if_pos hp]
    by_cases hop : a.operator = some "-" <;> simp [sort2ClaimAscending, hop]
  refine ⟨⟨?_, fun ⟨hf, hp⟩ => ⟨a.lhsProp, sort2ClaimAscending a, hpart2 hf hp⟩⟩, hpart2⟩
  rintro ⟨f, asc, hfa⟩
  unfold getSortExpression2 at hfa
  simp only [] at hfa
  split at hfa
  · next hc =>
      split at hfa
      · next hp => exact ⟨hcond.mp hc, hp⟩
      · exact SortOutcome.noConfusion hfa
  · exact SortOutcome.noConfusion hfa

/-- Witness for C3 on the claim's two examples: `(x, y) => x.a - y.a` is
ascending and `(x, y) => -(x.a - y.a)` is descending. -/
theorem C3_subtraction_normalizer_descriptor_witness :
    getSortExpression2 ⟨"x", "y", "x", "a", "y", "a", none⟩ = .descriptor "a" true ∧
    getSortExpression2 ⟨"x", "y", "x", "a", "y", "a", some "-"⟩ = .descriptor "a" false :=
  ⟨(C3_subtraction_normalizer_descriptor ⟨"x", "y", "x", "a", "y", "a", none⟩
      (by decide)).2 (Or.inl ⟨rfl, rfl⟩) rfl,
   (C3_subtraction_normalizer_descriptor ⟨"x", "y", "x", "a", "y", "a", some "-"⟩
      (by decide)).2 (Or.inl ⟨rfl, rfl⟩) rfl⟩

/-- The claim's side condition for the relational sort extractor: the two
member-expression objects are exactly the two formal parameters. -/
def sortArgsExactPairing (lo ro p1 p2 : String) : Prop :=
  (lo = p1 ∧ ro = p2) ∨ (lo = p2 ∧ ro = p1)

/-- C5: for a sort call whose comparator is a two-parameter arrow with a
binary body comparing member accesses, and distinct formals, `getSortArgs`
raises a fatal error exactly when the operator is outside the relational
set, the two property names differ, or the two member-expression objects
are not exactly the two formals; otherwise it returns one descriptor with
ascending true iff the operator is `>` and the first formal is the left
object, or the operator is `<` and the first formal is the right object. -/
theorem C5_sort_args_fatal_conditions (p1 p2 op lo lf ro rf : String) (hd : p1 ≠ p2) :
    ((∃ m, getSortArgs [.arrow [p1, p2]
        (.binop op (.member (.ident lo) lf) (.member (.ident ro) rf))] = .error m) ↔
      (op ∉ relationalOps ∨ lf ≠ rf ∨ ¬ sortArgsExactPairing lo ro p1 p2)) ∧
    (op ∈ relationalOps → lf = rf → sortArgsExactPairing lo ro p1 p2 →
      getSortArgs [.arrow [p1, p2]
        (.binop op (.member (.ident lo) lf) (.member (.ident ro) rf))] =
        .ok [⟨lf, (op = ">" ∧ p1 = lo) ∨ (op = "<" ∧ p1 = ro)⟩]) := by
  have hcont : relationalOps.contains op = true ↔ op ∈ relationalOps :=
    ⟨List.mem_of_elem_eq_true, List.elem_eq_true_of_mem⟩
  have hev : ((lo = p1 ∨ ro = p1) ∧ (lo = p2 ∨ ro = p2)) ↔ sortArgsExactPairing lo ro p1 p2 := by
    constructor
    · rintro ⟨h1 | h1, h2 | h2⟩
      · exact absurd (h1.symm.trans h2) hd
      · exact Or.inl ⟨h1, h2⟩
      · exact Or.inr ⟨h2, h1⟩
      · exact absurd (h1.symm.trans h2) hd
    · rintro (⟨h1, h2⟩ | ⟨h1, h2⟩)
      · exact ⟨Or.inl h1, Or.inr h2⟩
      · exact ⟨Or.inr h2, Or.inl h1⟩
  simp only [getSortArgs, List.head?_cons]
  by_cases hop : op ∈ relationalOps
  · rw [if_pos (hcont.mpr hop)]
    by_cases hlo : lo = p1 ∨ lo = p2
    · rw [if_pos hlo]
      by_cases hlf : lf = rf
      · rw [if_neg (fun h => h hlf)]
        by_cases hevc : (lo = p1 ∨ ro = p1) ∧ (lo = p2 ∨ ro = p2)
        · rw [if_pos hevc]
          constructor
          · constructor
            · rintro ⟨m, hm⟩
              exact Except.noConfusion hm
            · rintro (h | h | h)
              · exact absurd hop h
              · exact absurd hlf h
              · exact absurd (hev.mp hevc) h
          · intro _ _ _
            rfl
        · rw [if_neg hevc]
          constructor
          · constructor
            · intro _
              exact Or.inr (Or.inr (fun hp => hevc (hev.mpr hp)))
            · intro _
              exact ⟨_, rfl⟩
          · intro _ _ hp
            exact absurd (hev.mpr hp) hevc
      · rw [if_pos (fun h => hlf h)]
        constructor
        · constructor
          · intro _
            exact Or.inr (Or.inl hlf)
          · intro _
            exact ⟨_, rfl⟩
        · intro _ h _
          exact absurd h hlf
    · rw [if_neg hlo]
      constructor
      · constructor
        · intro _
          refine Or.inr (Or.inr (fun hp => hlo ?_))
          rcases hp with ⟨h1, _⟩ | ⟨h1, _⟩
          · exact Or.inl h1
          · exact Or.inr h1
        · intro _
          exact ⟨_, rfl⟩
      · intro _ _ hp
        rcases hp with ⟨h1, _⟩ | ⟨h1, _⟩
        · exact absurd (Or.inl h1) hlo
        · exact absurd (Or.inr h1) hlo
  · rw [if_neg (fun h => hop (hcont.mp h))]
    constructor
    · constructor
      · intro _
        exact Or.inl hop
      · intro _
        exact ⟨_, rfl⟩
    · intro h
      exact absurd h hop

/-- Witness for C5 on the comparator `(x, y) => x.a > y.a`. -/
theorem C5_sort_args_fatal_conditions_witness :
    getSortArgs [.arrow ["x", "y"]
      (.binop ">" (.member (.ident "x") "a") (.member (.ident "y") "a"))] =
      .ok [⟨"a", true⟩] :=
  (C5_sort_args_fatal_conditions "x" "y" ">" "x" "a" "y" "a" (by decide)).2
    (by decide) rfl (Or.inl ⟨rfl, rfl⟩)

/-- C7: a pattern capturing the same name at two positions matches only if
the two captured values are equal, and Skips when they differ; in
particular the comparator pattern of sort.js, which captures both formal
parameters under the single name "name", Skips on any arrow function whose
two parameter names differ, whatever its body. -/
theorem C7_capture_consistency :
    (∀ (n : String) (v1 v2 : JsVal) (bs : List (String × JsVal)),
      matchPat (pairCapturePat n) (.vcons v1 (.vcons v2 .vnil)) = .success bs → v1 = v2) ∧
    (∀ (n : String) (v1 v2 : JsVal), v1 ≠ v2 →
      matchPat (pairCapturePat n) (.vcons v1 (.vcons v2 .vnil)) = .skip captureConflictMsg) ∧
    (∀ (a b : String) (bodyV : JsVal), a ≠ b →
      matchPat comparatorHeadPat (arrowVal a b bodyV) = .skip captureConflictMsg) := by
  have hpair : ∀ (n : String) (v1 v2 : JsVal),
      matchPat (pairCapturePat n) (.vcons v1 (.vcons v2 .vnil)) =
        if v1 = v2 then .success [(n, v1)] else .skip captureConflictMsg := by
    intro n v1 v2
    by_cases hv : v1 = v2 <;>
      simp [pairCapturePat, matchPat, combine, mergeBindings, addBinding, List.find?, hv]
  refine ⟨fun n v1 v2 bs h => ?_, fun n v1 v2 h => ?_, fun a b bodyV h => ?_⟩
  · rw [hpair] at h
    split at h
    · next hv => exact hv
    · exact MatchOutcome.noConfusion h
  · rw [hpair, if_neg h]
  · simp [comparatorHeadPat, comparatorParamsPat, matchPat, arrowVal, identVal, getField,
      combine, mergeBindings, addBinding, List.find?, h]

/-- Witness for C7: two distinct captured values Skip, and a comparator with
formals `x` and `y` Skips under the repeated "name" capture. -/
theorem C7_capture_consistency_witness :
    matchPat (pairCapturePat "name") (.vcons (.str "x") (.vcons (.str "y") .vnil)) =
      .skip captureConflictMsg ∧
    matchPat comparatorHeadPat (arrowVal "x" "y" (.num 0)) = .skip captureConflictMsg :=
  ⟨C7_capture_consistency.2.1 "name" (.str "x") (.str "y") (by decide),
   C7_capture_consistency.2.2 "x" "y" (.num 0) (by decide)⟩

/-- C4: an operation node whose resolved predecessor's id is not in its
registry entry's `follows` set produces no IR node (shown for call-shaped
and member-shaped candidates); conversely the chain
`root.todos.filter(…).map(…).slice(0, 5)`, rooted in a recognized
collection reference, analyzes end-to-end into one IR node per operation. -/
theorem C4_chain_follows_gating :
    (∀ (cfg : AnalyzerConfig) (wl : List OpId) (o : Expr) (m : String) (args : List Expr)
        (d : NodeDefinition) (pid : OpId) (pir : DbNode),
      findDef cfg wl (.call (.member o m) args) = some d →
      analyzeChain cfg allOps o = .ok (some (pid, pir)) →
      pid ∉ d.follows →
      analyzeChain cfg wl (.call (.member o m) args) = .ok none) ∧
    (∀ (cfg : AnalyzerConfig) (wl : List OpId) (o : Expr) (p : String)
        (d : NodeDefinition) (pid : OpId) (pir : DbNode),
      findDef cfg wl (.member o p) = some d →
      d.id ≠ OpId.root →
      analyzeChain cfg allOps o = .ok (some (pid, pir)) →
      pid ∉ d.follows →
      analyzeChain cfg wl (.member o p) = .ok none) ∧
    analyzeCallExpression rootConfig c4Chain = .ok (some (.slice, c4ExpectedIR)) := by
  refine ⟨fun cfg wl o m args d pid pir hfd hrec hnot => ?_,
          fun cfg wl o p d pid pir hfd hroot hrec hnot => ?_, rfl⟩
  · simp only [analyzeChain, hfd, hrec]
    rw [if_neg hnot]
  · simp only [analyzeChain, hfd]
    rw [if_neg hroot]
    simp only [hrec]
    rw [if_neg hnot]

/-- The registry entry for `filter`. -/
def filterDef : NodeDefinition := ⟨.filter, some "filter", "CallExpression", [.root, .sort]⟩

/-- The IR node resolved for `root.todos.map(t => ({title: t.title}))`. -/
def mapIR : DbNode :=
  DbNode.mk "query" (some "map") none none none
    [("fields", .mapFields [("title", "title")])]
    (some (DbNode.mk "query" none none (some "root") (some "todos") [] none))

/-- Witness for C4 on `root.todos.map(…).filter(…)`: the resolved
predecessor `map` is not in `filter.follows`, so no IR node is produced. -/
theorem C4_chain_follows_gating_witness :
    analyzeChain rootConfig [.filter, .map, .slice, .sort] c4BadChain = .ok none :=
  C4_chain_follows_gating.1 rootConfig [.filter, .map, .slice, .sort]
    (.call (.member (.member (.ident "root") "todos") "map")
      [.arrow ["t"] (.objlit [(some "title", .member (.ident "t") "title")])])
    "filter" [.arrow ["t"] (.member (.ident "t") "done")] filterDef .map mapIR rfl rfl (by decide)

/-- C8: a member expression `db.coll.length` whose inner access is on a
recognized root identifier analyzes, under the member-expression entry
whitelist root and length, into a Value IR node with property "length"
whose source is the collection-reference node for that collection. -/
theorem C8_length_member_expression (cfg : AnalyzerConfig) (ids : List String)
    (db coll : String) (hids : cfg.identifiers = some ids) (hdb : db ∈ ids) :
    analyzeMemberExpression cfg (.member (.member (.ident db) coll) "length") =
      .ok (some (.length, DbNode.mk "value" none (some "length") none none []
        (some (DbNode.mk "query" none none (some db) (some coll) [] none)))) := by
  have hc : ids.contains db = true := List.elem_eq_true_of_mem hdb
  simp [analyzeMemberExpression, analyzeChain, findDef, nodeDefinitions, defMatches, isRoot,
    getRootArgs, buildOp, DbCommand.length, createValue, createCollection, allOps,
    hids, hc, hdb, List.find?, List.filter]

/-- Witness for C8 on `root.todos.length` with `root` as the configured
identifier. -/
theorem C8_length_member_expression_witness :
    analyzeMemberExpression rootConfig (.member (.member (.ident "root") "todos") "length") =
      .ok (some (.length, DbNode.mk "value" none (some "length") none none []
        (some (DbNode.mk "query" none none (some "root") (some "todos") [] none)))) :=
  C8_length_member_expression rootConfig ["root"] "root" "todos" rfl (by decide)
